import Mathlib

/-!
Shallow embedding of `src/server1.py`, a single-connection websocket
request/response server in front of a text-generation backend.

The transport is modelled as the list of inbound frames; exhausting the
list corresponds to the transport raising `ConnectionClosed` on the next
`recv`.  `json.loads` is abstracted per frame: a frame either fails to
decode (`InMsg.junk`) or decodes to a JSON value (`InMsg.v j`).  Outbound
frames are recorded as the JSON values passed to `json.dumps`.  The OpenAI
backend call is an abstract function from the call arguments to a result
(success with text and optional usage, or an exception).  An uncaught
Python exception is modelled by the `crashed` flag / `Outcome.crashed`
terminating the trace.
-/

/-- JSON values as produced by `json.loads`.  Numbers are modelled as exact
rationals: the server only passes numbers through (no arithmetic), so the
binary-float representation is below this model.  An object is the ordered
list of the dict's items (keys distinct, as a Python dict has). -/
inductive JVal where
  | null
  | bool (b : Bool)
  | num (q : ℚ)
  | str (s : String)
  | arr (elems : List JVal)
  | obj (fields : List (String × JVal))

/-- Python `dict.get(key)`: the value stored at `key`, when present. -/
def jget : List (String × JVal) → String → Option JVal
  | [], _ => none
  | (k, v) :: rest, key => if k = key then some v else jget rest key

/-- Python `dict.get(key, d)`: the value stored at `key`, defaulting to `d`. -/
def jgetD (fields : List (String × JVal)) (key : String) (d : JVal) : JVal :=
  (jget fields key).getD d

/-- Characters Python `str.strip()` / `float()` treat as whitespace (the ASCII
set; Python also strips Unicode space characters, which the protocol logic
never distinguishes). -/
def pyIsSpace (c : Char) : Bool :=
  c == ' ' || c == '\t' || c == '\n' || c == '\r' || c == Char.ofNat 11 || c == Char.ofNat 12

/-- Models `not prompt.strip()` at line 83: true iff the string is empty or
consists only of whitespace. -/
def isBlank (s : String) : Bool :=
  s.toList.all pyIsSpace

/-- Numeric value of a digit string. -/
def digitsVal (l : List Char) : ℕ :=
  l.foldl (fun a c => 10 * a + (c.toNat - 48)) 0

/-- Optional leading sign: returns (isNegative, rest). -/
def parseSign : List Char → Bool × List Char
  | '+' :: r => (false, r)
  | '-' :: r => (true, r)
  | l => (false, l)

/-- Mantissa of a Python float literal: `digits`, `digits.`, `digits.digits`
or `.digits`; returns its value and the unconsumed suffix. -/
def parseMantissa (l : List Char) : Option (ℚ × List Char) :=
  let ip := l.takeWhile Char.isDigit
  let r1 := l.dropWhile Char.isDigit
  match r1 with
  | '.' :: r2 =>
    let fp := r2.takeWhile Char.isDigit
    let r3 := r2.dropWhile Char.isDigit
    if ip.isEmpty && fp.isEmpty then none
    else some ((digitsVal ip : ℚ) + (digitsVal fp : ℚ) / (10 : ℚ) ^ fp.length, r3)
  | _ => if ip.isEmpty then none else some ((digitsVal ip : ℚ), r1)

/-- Models Python `float(s)` on a string: optional surrounding whitespace,
optional sign, decimal mantissa, optional exponent.  (`inf`/`nan` literals and
digit-grouping underscores are left out: they have no counterpart in the
rational number model and never arise in this protocol.) -/
def parsePyFloat (s : String) : Option ℚ :=
  let core := ((s.toList.dropWhile pyIsSpace).reverse.dropWhile pyIsSpace).reverse
  let (neg, l1) := parseSign core
  match parseMantissa l1 with
  | none => none
  | some (m, l2) =>
    let signed : ℚ := if neg then -m else m
    match l2 with
    | [] => some signed
    | c :: r =>
      if c == 'e' || c == 'E' then
        let (eneg, r2) := parseSign r
        let ds := r2.takeWhile Char.isDigit
        let r3 := r2.dropWhile Char.isDigit
        if ds.isEmpty || !r3.isEmpty then none
        else
          let e : ℤ := if eneg then -(digitsVal ds : ℤ) else (digitsVal ds : ℤ)
          some (signed * (10 : ℚ) ^ e)
      else none

/-- Models the Python builtin `float(x)` at line 80 on a JSON value: numbers
pass through, booleans coerce to 0/1, strings are parsed as float literals,
everything else raises (`none`). -/
def pyFloat : JVal → Option ℚ
  | .num q => some q
  | .bool b => some (if b then 1 else 0)
  | .str s => parsePyFloat s
  | .null => none
  | .arr _ => none
  | .obj _ => none

/-- Python `str` of an integer-valued number; non-integral rationals print as
`num/den`, a stand-in for Python float repr (a binary-float detail the
protocol never exercises). -/
def pyReprNum (q : ℚ) : String :=
  if q.den = 1 then toString q.num else toString q.num ++ "/" ++ toString q.den

/-- A single-quote character, for Python-style repr of strings. -/
def pyQ : String :=
  (Char.ofNat 39).toString

mutual

/-- Python `repr(x)` of a JSON value (string escaping inside repr omitted). -/
def pyRepr : JVal → String
  | .null => "None"
  | .bool b => if b then "True" else "False"
  | .num q => pyReprNum q
  | .str s => pyQ ++ s ++ pyQ
  | .arr xs => "[" ++ pyReprList xs ++ "]"
  | .obj fs => "\x7b" ++ pyReprFields fs ++ "\x7d"

/-- Comma-separated reprs of a list's elements. -/
def pyReprList : List JVal → String
  | [] => ""
  | [x] => pyRepr x
  | x :: xs => pyRepr x ++ ", " ++ pyReprList xs

/-- Comma-separated `key: value` reprs of a dict's items. -/
def pyReprFields : List (String × JVal) → String
  | [] => ""
  | [(k, v)] => pyQ ++ k ++ pyQ ++ ": " ++ pyRepr v
  | (k, v) :: fs => pyQ ++ k ++ pyQ ++ ": " ++ pyRepr v ++ ", " ++ pyReprFields fs

end

/-- Python `str(x)` as interpolated by the f-string
`f"Unknown method \x7bmethod\x7d"` at line 131: like repr, but a string
prints unquoted and Python `None` (a missing `method` field) prints `None`. -/
def pyStr : JVal → String
  | .str s => s
  | v => pyRepr v

/-- Constant `SERVER_NAME` at line 20. -/
def SERVER_NAME : String :=
  "sample-mcp-server"

/-- Constant `CAPS` at line 21 (the capability list). -/
def CAPS : List String :=
  ["llm.generate"]

/-- Arguments of one `oai.chat.completions.create(...)` call (lines 94-101):
the model and system values are whatever JSON values the params supplied
(passed through unchecked); the prompt is the user-message content, a string
by the time the call is reached; the temperature is the coerced float. -/
structure LLMCall where
  model : JVal
  temperature : ℚ
  system : JVal
  prompt : String

/-- Outcome of one backend call: success carries `chat.choices[0].message.content`
(a JSON value: the SDK may report `None`) and the optional `usage` object
already serialized by `model_dump()`; failure carries `str(e)` and the full
diagnostic trace lines of `traceback.format_exc().splitlines()`. -/
inductive LLMResult where
  | ok (text : JVal) (usage : Option (List (String × JVal)))
  | err (message : String) (traceLines : List String)

/-- Python `lines[-5:]`: the last `n` elements. -/
def takeLast (n : ℕ) (l : List String) : List String :=
  l.drop (l.length - n)

/-- A result envelope with an error object `\x7bcode, message\x7d`. -/
def resultErr (id : JVal) (code msg : String) : JVal :=
  .obj [("type", .str "result"), ("id", id), ("ok", .bool false),
        ("error", .obj [("code", .str code), ("message", .str msg)])]

/-- The `LLMError` result envelope (lines 115-124), whose error object also
carries the last five trace lines. -/
def resultLLMError (id : JVal) (msg : String) (trace : List String) : JVal :=
  .obj [("type", .str "result"), ("id", id), ("ok", .bool false),
        ("error", .obj [("code", .str "LLMError"), ("message", .str msg),
                        ("trace", .arr (trace.map .str))])]

/-- The success envelope (lines 104-113). -/
def resultOk (id text fmt : JVal) (usage : List (String × JVal)) : JVal :=
  .obj [("type", .str "result"), ("id", id), ("ok", .bool true),
        ("data", .obj [("text", text), ("format", fmt), ("usage", .obj usage)])]

/-- The ReadyAnnouncement sent after a successful handshake (lines 38-42). -/
def readyMsg : JVal :=
  .obj [("type", .str "ready"), ("server", .str SERVER_NAME),
        ("capabilities", .arr (CAPS.map .str))]

/-- The fatal handshake failure envelope (lines 29-34). -/
def initBadJson : JVal :=
  resultErr (.str "init") "BadJSON" "Initialize must be JSON"

/-- The non-fatal in-loop decode failure envelope (lines 54-59). -/
def loopBadJson : JVal :=
  resultErr (.str "unknown") "BadJSON" "Request must be JSON"

/-- Observable effects of processing one decoded message: the envelopes sent,
the backend calls made, and whether an uncaught Python exception was raised
(which, in `handle`, tears the session down). -/
structure StepOut where
  sends : List JVal
  calls : List LLMCall
  crashed : Bool

/-- Method dispatch, lines 75-132, after `req_id`, `method` and `params` have
been extracted.  Order of effects follows the source: for `llm.generate`,
params lookups (raising on a non-dict `params`), the `float` coercion of
`temperature` at line 80 (raising on a non-coercible value, before any
send and before the prompt check), the blank-prompt check at line 83, then
the guarded backend call; any exception inside the `try` at lines 92-113
becomes the `LLMError` envelope.  Any other method gets `NoSuchMethod`. -/
def dispatch (oaiModel : String) (bk : LLMCall → LLMResult)
    (reqId method params : JVal) : StepOut :=
  match method with
  | .str "llm.generate" =>
    match params with
    | .obj pf =>
      let prompt := jgetD pf "prompt" (.str "")
      let system := jgetD pf "system" (.str "You are a helpful assistant.")
      let model := jgetD pf "model" (.str oaiModel)
      match pyFloat (jgetD pf "temperature" (.num (1 / 5))) with
      | none => ⟨[], [], true⟩
      | some temperature =>
        let fmt := jgetD pf "format" (.str "markdown")
        match prompt with
        | .str p =>
          if isBlank p then
            ⟨[resultErr reqId "BadRequest" "prompt is required"], [], false⟩
          else
            let call : LLMCall := ⟨model, temperature, system, p⟩
            match bk call with
            | .ok text usage =>
              ⟨[resultOk reqId text fmt (usage.getD [])], [call], false⟩
            | .err m tr =>
              ⟨[resultLLMError reqId m (takeLast 5 tr)], [call], false⟩
        | _ => ⟨[], [], true⟩
    | _ => ⟨[], [], true⟩
  | _ =>
    ⟨[resultErr reqId "NoSuchMethod" ("Unknown method " ++ pyStr method)], [], false⟩

/-- Processing of one decoded in-loop message, lines 62-132.  A message that
is not a JSON object raises `AttributeError` at `msg.get` (line 62) before
anything is sent.  A JSON object whose `type` field is not the string
`"request"` gets the `BadRequest` envelope of lines 63-68; otherwise `id`,
`method` and `params` are extracted with their defaults (lines 71-73) and
dispatched. -/
def handleMsg (oaiModel : String) (bk : LLMCall → LLMResult) (m : JVal) : StepOut :=
  match m with
  | .obj fields =>
    match jget fields "type" with
    | some (.str "request") =>
      dispatch oaiModel bk (jgetD fields "id" (.str "unknown"))
        (jgetD fields "method" .null) (jgetD fields "params" (.obj []))
    | _ =>
      ⟨[resultErr (jgetD fields "id" (.str "unknown")) "BadRequest" "Expected type=request"],
       [], false⟩
  | _ => ⟨[], [], true⟩

/-- One inbound frame, as seen through `json.loads`: either a frame whose
body fails to decode (raising `json.JSONDecodeError`) or one decoding to a
JSON value. -/
inductive InMsg where
  | junk
  | v (j : JVal)

/-- How a session ends: `closed` for a clean return (transport closure, or the
fatal handshake failure's `return`); `crashed` for an uncaught Python
exception propagating out of `handle`. -/
inductive Outcome where
  | closed
  | crashed

/-- Observable behaviour of a whole session: envelopes sent, backend calls
made, and how it ended. -/
structure Trace where
  sends : List JVal
  calls : List LLMCall
  outcome : Outcome

/-- The request loop of lines 45-132 over the remaining inbound frames.
Exhausting the frames is `ConnectionClosed` on `recv`, caught at lines 46-49
(`break`): a clean end.  An undecodable frame gets the `BadJSON` envelope of
lines 54-59 and the loop continues.  A decoded frame is processed by
`handleMsg`; a crash ends the session at once, anything else appends its
sends and continues. -/
def serve (oaiModel : String) (bk : LLMCall → LLMResult) : List InMsg → Trace
  | [] => ⟨[], [], .closed⟩
  | .junk :: rest =>
    let t := serve oaiModel bk rest
    ⟨loopBadJson :: t.sends, t.calls, t.outcome⟩
  | .v j :: rest =>
    let s := handleMsg oaiModel bk j
    if s.crashed then ⟨s.sends, s.calls, .crashed⟩
    else
      let t := serve oaiModel bk rest
      ⟨s.sends ++ t.sends, s.calls ++ t.calls, t.outcome⟩

/-- The whole connection handler `handle` (lines 23-132) on the full list of
inbound frames.  No frame at all means `recv` at line 25 raises
`ConnectionClosed`, which nothing catches there.  An undecodable first frame
gets the fatal `BadJSON` envelope and `return` (lines 26-35): no
ReadyAnnouncement, no serve loop.  Any decoded first frame is accepted
without validation; the ReadyAnnouncement is sent and the loop runs on the
remaining frames. -/
def handle (oaiModel : String) (bk : LLMCall → LLMResult) : List InMsg → Trace
  | [] => ⟨[], [], .crashed⟩
  | .junk :: _ => ⟨[initBadJson], [], .closed⟩
  | .v _ :: rest =>
    let t := serve oaiModel bk rest
    ⟨readyMsg :: t.sends, t.calls, t.outcome⟩

/-- Whether processing one frame raises an uncaught exception (terminating
the session). -/
def stepCrashes (oaiModel : String) (bk : LLMCall → LLMResult) : InMsg → Bool
  | .junk => false
  | .v j => (handleMsg oaiModel bk j).crashed

/-- Whether an outbound envelope is framed as a result (`type == "result"`),
as every ResultEnvelope the server builds is; the ReadyAnnouncement is not. -/
def isResultMsg (v : JVal) : Bool :=
  match v with
  | .obj fields =>
    match jget fields "type" with
    | some (.str "result") => true
    | _ => false
  | _ => false

/-- The configured default model of the source's own environment default
(`os.getenv("OPENAI_MODEL", "gpt-4o-mini")`), used as a concrete
configuration in witnesses. -/
def dmX : String :=
  "gpt-4o-mini"

/-- A mock backend that always succeeds with text `"hello"` and reports no
usage, as in the spec's happy-path scenario. -/
def bkHello : LLMCall → LLMResult :=
  fun _ => .ok (.str "hello") none

/-- A well-formed request envelope object. -/
def reqMsg (id method params : JVal) : JVal :=
  .obj [("type", .str "request"), ("id", id), ("method", method), ("params", params)]

/-- An `llm.generate` request whose `temperature` cannot be coerced by
`float`. -/
def badTempReq : JVal :=
  reqMsg (.str "r1") (.str "llm.generate")
    (.obj [("prompt", .str "hi"), ("temperature", .str "abc")])

/-- An `llm.generate` request whose `prompt` is the empty string and whose
`temperature` cannot be coerced by `float`. -/
def blankBadTempReq : JVal :=
  reqMsg (.str "r1") (.str "llm.generate")
    (.obj [("prompt", .str ""), ("temperature", .str "abc")])

theorem jgetD_congr {pf1 pf2 : List (String × JVal)} {k : String} (d : JVal)
    (h : jget pf1 k = jget pf2 k) : jgetD pf1 k d = jgetD pf2 k d := by
  simp [jgetD, h]

theorem handleMsg_crash_or_one (om : String) (bk : LLMCall → LLMResult) (j : JVal) :
    (handleMsg om bk j).crashed = true ∨ ((handleMsg om bk j).sends).length = 1 := by
  unfold handleMsg dispatch
  repeat' (first | split | dsimp only)
  all_goals first | (left; rfl) | (right; rfl)

theorem handleMsg_sends_result (om : String) (bk : LLMCall → LLMResult) (j : JVal) :
    ((handleMsg om bk j).sends).all isResultMsg = true := by
  unfold handleMsg dispatch
  repeat' (first | split | dsimp only)
  all_goals rfl

theorem serve_sends_result (om : String) (bk : LLMCall → LLMResult) :
    ∀ ms : List InMsg, ((serve om bk ms).sends).all isResultMsg = true
  | [] => rfl
  | .junk :: rest => by
    show (loopBadJson :: (serve om bk rest).sends).all isResultMsg = true
    rw [List.all_cons, serve_sends_result om bk rest]
    rfl
  | .v j :: rest => by
    show ((if (handleMsg om bk j).crashed = true then
        (⟨(handleMsg om bk j).sends, (handleMsg om bk j).calls, Outcome.crashed⟩ : Trace)
      else
        ⟨(handleMsg om bk j).sends ++ (serve om bk rest).sends,
         (handleMsg om bk j).calls ++ (serve om bk rest).calls,
         (serve om bk rest).outcome⟩).sends).all isResultMsg = true
    split
    · exact handleMsg_sends_result om bk j
    · rw [List.all_append, handleMsg_sends_result om bk j, serve_sends_result om bk rest]
      rfl

/-- Claim C1, counterexample: a message that decodes to a well-formed JSON
value that is not an object (here the JSON string `"hi"`) does NOT get a
ResultEnvelope: `msg.get` at line 62 raises `AttributeError`, nothing is
sent for it, and the session is torn down by the uncaught exception rather
than by transport closure. -/
theorem C1_counterexample :
    (serve dmX bkHello [InMsg.v (JVal.str "hi")]).sends = [] ∧
    (serve dmX bkHello [InMsg.v (JVal.str "hi")]).outcome = Outcome.crashed :=
  ⟨rfl, rfl⟩

/-- Claim C1 (amended): every message received in the serve loop whose
processing does not raise an uncaught exception yields exactly one outbound
ResultEnvelope, and transport closure yields none and ends the loop cleanly:
over any trace of non-crashing messages, the number of envelopes sent equals
the number of messages received and the session ends `closed`. -/
theorem C1_one_response_per_message (om : String) (bk : LLMCall → LLMResult)
    (ms : List InMsg) (h : ∀ m ∈ ms, stepCrashes om bk m = false) :
    (serve om bk ms).sends.length = ms.length ∧
    (serve om bk ms).outcome = Outcome.closed := by
  induction ms with
  | nil => exact ⟨rfl, rfl⟩
  | cons m rest ih =>
    have hr := ih (fun x hx => h x (List.mem_cons_of_mem _ hx))
    cases m with
    | junk =>
      refine ⟨?_, ?_⟩
      · show (loopBadJson :: (serve om bk rest).sends).length = rest.length + 1
        rw [List.length_cons, hr.1]
      · show (serve om bk rest).outcome = Outcome.closed
        exact hr.2
    | v j =>
      have hc : (handleMsg om bk j).crashed = false := h (.v j) (List.mem_cons_self _ _)
      have h1 : ((handleMsg om bk j).sends).length = 1 := by
        rcases handleMsg_crash_or_one om bk j with hcr | hlen
        · rw [hc] at hcr; exact absurd hcr (by simp)
        · exact hlen
      show ((if (handleMsg om bk j).crashed = true then
          (⟨(handleMsg om bk j).sends, (handleMsg om bk j).calls, Outcome.crashed⟩ : Trace)
        else
          ⟨(handleMsg om bk j).sends ++ (serve om bk rest).sends,
           (handleMsg om bk j).calls ++ (serve om bk rest).calls,
           (serve om bk rest).outcome⟩).sends.length = rest.length + 1 ∧
        (if (handleMsg om bk j).crashed = true then
          (⟨(handleMsg om bk j).sends, (handleMsg om bk j).calls, Outcome.crashed⟩ : Trace)
        else
          ⟨(handleMsg om bk j).sends ++ (serve om bk rest).sends,
           (handleMsg om bk j).calls ++ (serve om bk rest).calls,
           (serve om bk rest).outcome⟩).outcome = Outcome.closed)
      rw [hc]
      refine ⟨?_, hr.2⟩
      simp only [Bool.false_eq_true, if_false, List.length_append, h1, hr.1]
      omega

/-- Claim C1, witness: a two-message trace (an undecodable frame followed by
an unknown-method request) gets exactly two envelopes and a clean close. -/
theorem C1_witness :
    (serve dmX bkHello [InMsg.junk,
        InMsg.v (reqMsg (JVal.str "r1") (JVal.str "ping") (JVal.obj []))]).sends.length = 2 ∧
    (serve dmX bkHello [InMsg.junk,
        InMsg.v (reqMsg (JVal.str "r1") (JVal.str "ping") (JVal.obj []))]).outcome =
      Outcome.closed :=
  C1_one_response_per_message dmX bkHello
    [InMsg.junk, InMsg.v (reqMsg (JVal.str "r1") (JVal.str "ping") (JVal.obj []))]
    (by decide)

/-- Claim C2, counterexample: the request
`\x7btype:"request", id:"r1", method:"llm.generate",
params:\x7bprompt:"hi", temperature:"abc"\x7d\x7d` gets NO ResultEnvelope at
all — in particular no `LLMError` — and the session does not go on to serve
the following request: `float("abc")` at line 80 raises outside the
`try` of lines 92-113, tearing the session down. -/
theorem C2_counterexample :
    serve dmX bkHello [InMsg.v badTempReq,
        InMsg.v (reqMsg (JVal.str "r2") (JVal.str "ping") (JVal.obj []))] =
      ⟨[], [], Outcome.crashed⟩ :=
  rfl

/-- Claim C2 (amended): for every `llm.generate` request whose
`params.temperature` cannot be coerced by `float`, the coercion at line 80
raises before the guarded dispatch region is entered: the session sends no
ResultEnvelope for it, makes no backend call, and terminates, serving no
subsequent requests; `LLMError` reporting covers only failures inside the
backend-call `try` block. -/
theorem C2_temp_coercion_crash (om : String) (bk : LLMCall → LLMResult)
    (id : JVal) (pf : List (String × JVal)) (rest : List InMsg)
    (h : pyFloat (jgetD pf "temperature" (JVal.num (1 / 5))) = none) :
    serve om bk (InMsg.v (reqMsg id (JVal.str "llm.generate") (JVal.obj pf)) :: rest) =
      ⟨[], [], Outcome.crashed⟩ := by
  have hstep : handleMsg om bk (reqMsg id (JVal.str "llm.generate") (JVal.obj pf)) =
      ⟨[], [], true⟩ := by
    simp only [handleMsg, reqMsg, dispatch, jget, jgetD]
    simp only [jgetD, one_div] at h
    simp [h]
  simp [serve, hstep]

/-- Claim C2, witness: the concrete bad-temperature request crashes the
session with nothing sent. -/
theorem C2_witness :
    serve dmX bkHello [InMsg.v badTempReq] = ⟨[], [], Outcome.crashed⟩ :=
  C2_temp_coercion_crash dmX bkHello (JVal.str "r1")
    [("prompt", JVal.str "hi"), ("temperature", JVal.str "abc")] [] (by decide)

/-- Claim C3, counterexample: an `llm.generate` request whose prompt is the
empty string but whose `temperature` is the non-coercible `"abc"` does NOT
get the `BadRequest` "prompt is required" envelope and the loop does not
continue: the `float` coercion at line 80 runs before the blank-prompt check
at line 83 and crashes the session. -/
theorem C3_counterexample :
    serve dmX bkHello [InMsg.v blankBadTempReq] = ⟨[], [], Outcome.crashed⟩ :=
  rfl

/-- Claim C3 (amended): for every `llm.generate` request whose prompt is a
string that is empty or all-whitespace, provided the `temperature` parameter
(or its default) coerces to a float — the coercion at line 80 precedes the
blank-prompt check — the session emits one ResultEnvelope with the request's
id, `ok:false`, `error.code "BadRequest"` and message "prompt is required",
never invokes the backend, and continues the loop. -/
theorem C3_blank_prompt (om : String) (bk : LLMCall → LLMResult) (id : JVal)
    (pf : List (String × JVal)) (p : String) (t : ℚ) (rest : List InMsg)
    (hp : jgetD pf "prompt" (JVal.str "") = JVal.str p)
    (hb : isBlank p = true)
    (ht : pyFloat (jgetD pf "temperature" (JVal.num (1 / 5))) = some t) :
    serve om bk (InMsg.v (reqMsg id (JVal.str "llm.generate") (JVal.obj pf)) :: rest) =
      ⟨resultErr id "BadRequest" "prompt is required" :: (serve om bk rest).sends,
       (serve om bk rest).calls, (serve om bk rest).outcome⟩ := by
  have hstep : handleMsg om bk (reqMsg id (JVal.str "llm.generate") (JVal.obj pf)) =
      ⟨[resultErr id "BadRequest" "prompt is required"], [], false⟩ := by
    simp only [handleMsg, reqMsg, dispatch, jget, jgetD]
    simp only [jgetD, one_div] at hp ht
    simp [hp, hb, ht]
  simp [serve, hstep]

/-- Claim C3, witness: the all-whitespace prompt `"   "` with no temperature
parameter gets exactly the `BadRequest` envelope, no backend call, and a
clean continuation. -/
theorem C3_witness :
    serve dmX bkHello [InMsg.v (reqMsg (JVal.str "r9") (JVal.str "llm.generate")
        (JVal.obj [("prompt", JVal.str "   ")]))] =
      ⟨[resultErr (JVal.str "r9") "BadRequest" "prompt is required"], [], Outcome.closed⟩ :=
  C3_blank_prompt dmX bkHello (JVal.str "r9") [("prompt", JVal.str "   ")] "   " (1 / 5)
    [] rfl rfl rfl

/-- Claim C4 (confirmed): an undecodable first message gets exactly one
ResultEnvelope with id `"init"`, `ok:false`, `error.code "BadJSON"`, no
ReadyAnnouncement, and the session returns without entering the serve loop
(whatever frames follow are ignored); a first message decoding to any JSON
value whatsoever gets exactly one ReadyAnnouncement
`\x7btype:"ready", server, capabilities:["llm.generate"]\x7d` before the
serve loop runs, and nothing later in the loop is ready-framed (every later
send is a result envelope). -/
theorem C4_handshake (om : String) (bk : LLMCall → LLMResult) (j : JVal)
    (rest : List InMsg) :
    handle om bk (InMsg.junk :: rest) =
      ⟨[resultErr (JVal.str "init") "BadJSON" "Initialize must be JSON"], [],
       Outcome.closed⟩ ∧
    (handle om bk (InMsg.v j :: rest)).sends = readyMsg :: (serve om bk rest).sends ∧
    ((serve om bk rest).sends).all isResultMsg = true ∧
    isResultMsg readyMsg = false :=
  ⟨rfl, rfl, serve_sends_result om bk rest, rfl⟩

/-- Claim C5 (confirmed): an undecodable message after the handshake gets
exactly one ResultEnvelope with id `"unknown"`, `ok:false` and
`error.code "BadJSON"`, and the loop continues on the remaining frames
exactly as it would have (same further sends, calls and outcome): the
failure is non-fatal, unlike the handshake case. -/
theorem C5_loop_badjson (om : String) (bk : LLMCall → LLMResult) (rest : List InMsg) :
    serve om bk (InMsg.junk :: rest) =
      ⟨resultErr (JVal.str "unknown") "BadJSON" "Request must be JSON" ::
        (serve om bk rest).sends,
       (serve om bk rest).calls, (serve om bk rest).outcome⟩ :=
  rfl

/-- Claim C6 (confirmed): every message of type `"request"` whose method
(defaulting to Python `None` when missing) is not `"llm.generate"` gets one
ResultEnvelope carrying the request's id (or `"unknown"`), `ok:false`,
`error.code "NoSuchMethod"` and message `"Unknown method "` followed by the
Python `str` of the method value, and the loop continues on the remaining
frames unchanged. -/
theorem C6_no_such_method (om : String) (bk : LLMCall → LLMResult)
    (fields : List (String × JVal)) (rest : List InMsg)
    (ht : jget fields "type" = some (JVal.str "request"))
    (hm : jgetD fields "method" JVal.null ≠ JVal.str "llm.generate") :
    serve om bk (InMsg.v (JVal.obj fields) :: rest) =
      ⟨resultErr (jgetD fields "id" (JVal.str "unknown")) "NoSuchMethod"
          ("Unknown method " ++ pyStr (jgetD fields "method" JVal.null)) ::
        (serve om bk rest).sends,
       (serve om bk rest).calls, (serve om bk rest).outcome⟩ := by
  have hstep : handleMsg om bk (JVal.obj fields) =
      ⟨[resultErr (jgetD fields "id" (JVal.str "unknown")) "NoSuchMethod"
          ("Unknown method " ++ pyStr (jgetD fields "method" JVal.null))], [], false⟩ := by
    simp only [handleMsg, ht]
    unfold dispatch
    split
    · next heq => exact absurd heq hm
    · rfl
  simp [serve, hstep]

/-- Claim C6, witness: the spec's own scenario — method `"ping"` — gets
`NoSuchMethod` with message "Unknown method ping" and a clean continuation. -/
theorem C6_witness :
    serve dmX bkHello [InMsg.v (reqMsg (JVal.str "r2") (JVal.str "ping")
        (JVal.obj []))] =
      ⟨[resultErr (JVal.str "r2") "NoSuchMethod" "Unknown method ping"], [],
       Outcome.closed⟩ := by
  have h := C6_no_such_method dmX bkHello
    [("type", JVal.str "request"), ("id", JVal.str "r2"), ("method", JVal.str "ping"),
     ("params", JVal.obj [])] [] rfl (by simp [jgetD, jget])
  exact h

/-- Claim C7 (confirmed): a request
`\x7btype:"request", id, method:"llm.generate", params:\x7bprompt: p\x7d\x7d`
with a non-blank string prompt and no other params, when the backend
succeeds, gets exactly one ResultEnvelope with the same id, `ok:true` and
data `\x7btext: the backend text, format:"markdown", usage: the backend
usage serialized, or the empty mapping when absent\x7d`; the backend is
invoked exactly once, with the defaults of lines 78-80: system
`"You are a helpful assistant."`, the configured default model, temperature
`0.2`; and the loop continues on the remaining frames unchanged. -/
theorem C7_generate_success (om : String) (bk : LLMCall → LLMResult) (id : JVal)
    (p : String) (text : JVal) (usage : Option (List (String × JVal)))
    (rest : List InMsg)
    (hp : isBlank p = false)
    (hbk : bk (LLMCall.mk (JVal.str om) (1 / 5)
        (JVal.str "You are a helpful assistant.") p) = LLMResult.ok text usage) :
    serve om bk (InMsg.v (reqMsg id (JVal.str "llm.generate")
        (JVal.obj [("prompt", JVal.str p)])) :: rest) =
      ⟨resultOk id text (JVal.str "markdown") (usage.getD []) ::
        (serve om bk rest).sends,
       LLMCall.mk (JVal.str om) (1 / 5) (JVal.str "You are a helpful assistant.") p ::
         (serve om bk rest).calls,
       (serve om bk rest).outcome⟩ := by
  have hstep : handleMsg om bk (reqMsg id (JVal.str "llm.generate")
      (JVal.obj [("prompt", JVal.str p)])) =
      ⟨[resultOk id text (JVal.str "markdown") (usage.getD [])],
       [LLMCall.mk (JVal.str om) (1 / 5) (JVal.str "You are a helpful assistant.") p],
       false⟩ := by
    simp only [handleMsg, reqMsg, dispatch, jget, jgetD]
    simp only [one_div] at hbk ⊢
    simp [jget, jgetD, pyFloat, hp, hbk]
  simp [serve, hstep]

/-- Claim C7, witness: the spec's happy-path scenario — prompt `"hi"`, mock
backend text `"hello"`, no usage — yields
`\x7btype:"result", id:"r1", ok:true,
data:\x7btext:"hello", format:"markdown", usage:\x7b\x7d\x7d\x7d` and one
backend call with all defaults applied. -/
theorem C7_witness :
    serve dmX bkHello [InMsg.v (reqMsg (JVal.str "r1") (JVal.str "llm.generate")
        (JVal.obj [("prompt", JVal.str "hi")]))] =
      ⟨[resultOk (JVal.str "r1") (JVal.str "hello") (JVal.str "markdown") []],
       [LLMCall.mk (JVal.str dmX) (1 / 5)
         (JVal.str "You are a helpful assistant.") "hi"],
       Outcome.closed⟩ :=
  C7_generate_success dmX bkHello (JVal.str "r1") "hi" (JVal.str "hello") none []
    rfl rfl

/-- Claim C8 (confirmed): a decoded JSON-object message whose `type` field is
not the string `"request"` (wrong value, or absent) gets one ResultEnvelope
with `ok:false`, `error.code "BadRequest"`, message "Expected type=request",
and id echoed from the message (or `"unknown"` when absent), and the loop
continues; a message passing the check is dispatched with id defaulting to
`"unknown"` and params defaulting to the empty mapping. -/
theorem C8_type_gate (om : String) (bk : LLMCall → LLMResult)
    (fields : List (String × JVal)) (rest : List InMsg) :
    (jget fields "type" ≠ some (JVal.str "request") →
      serve om bk (InMsg.v (JVal.obj fields) :: rest) =
        ⟨resultErr (jgetD fields "id" (JVal.str "unknown")) "BadRequest"
            "Expected type=request" :: (serve om bk rest).sends,
         (serve om bk rest).calls, (serve om bk rest).outcome⟩) ∧
    (jget fields "type" = some (JVal.str "request") →
      handleMsg om bk (JVal.obj fields) =
        dispatch om bk (jgetD fields "id" (JVal.str "unknown"))
          (jgetD fields "method" JVal.null) (jgetD fields "params" (JVal.obj []))) := by
  constructor
  · intro h
    have hstep : handleMsg om bk (JVal.obj fields) =
        ⟨[resultErr (jgetD fields "id" (JVal.str "unknown")) "BadRequest"
            "Expected type=request"], [], false⟩ := by
      simp only [handleMsg]
    simp [serve, hstep]
  · intro h
    simp only [handleMsg, h]

/-- Claim C8, witness: `\x7btype:"hello", id:"x9"\x7d` gets the `BadRequest`
envelope with the echoed id `"x9"` and the loop ends cleanly. -/
theorem C8_witness :
    serve dmX bkHello [InMsg.v (JVal.obj [("type", JVal.str "hello"),
        ("id", JVal.str "x9")])] =
      ⟨[resultErr (JVal.str "x9") "BadRequest" "Expected type=request"], [],
       Outcome.closed⟩ :=
  (C8_type_gate dmX bkHello [("type", JVal.str "hello"), ("id", JVal.str "x9")] []).1
    (by simp [jget])

/-- Claim C9 (confirmed): for every `llm.generate` request whose prompt is a
string with at least one non-whitespace character (and coercible
temperature), the backend is invoked exactly once and its user prompt is the
supplied string exactly — whitespace is used only for the blankness check
and is never stripped from what the backend receives. -/
theorem C9_prompt_unstripped (om : String) (bk : LLMCall → LLMResult) (id : JVal)
    (pf : List (String × JVal)) (p : String) (t : ℚ)
    (hp : jgetD pf "prompt" (JVal.str "") = JVal.str p)
    (hb : isBlank p = false)
    (ht : pyFloat (jgetD pf "temperature" (JVal.num (1 / 5))) = some t) :
    (handleMsg om bk (reqMsg id (JVal.str "llm.generate") (JVal.obj pf))).calls =
      [LLMCall.mk (jgetD pf "model" (JVal.str om)) t
        (jgetD pf "system" (JVal.str "You are a helpful assistant.")) p] := by
  have h0 : handleMsg om bk (reqMsg id (JVal.str "llm.generate") (JVal.obj pf)) =
      dispatch om bk id (JVal.str "llm.generate") (JVal.obj pf) := rfl
  rw [h0]
  simp only [dispatch, jgetD]
  simp only [jgetD] at hp ht
  simp only [ht, hp]
  rw [if_neg (by simp [hb])]
  split <;> rfl

/-- Claim C9, witness: a prompt with leading and trailing whitespace,
`"  hi  "`, reaches the backend exactly as supplied. -/
theorem C9_witness :
    (handleMsg dmX bkHello (reqMsg (JVal.str "r1") (JVal.str "llm.generate")
        (JVal.obj [("prompt", JVal.str "  hi  ")]))).calls =
      [LLMCall.mk (JVal.str dmX) (1 / 5)
        (JVal.str "You are a helpful assistant.") "  hi  "] :=
  C9_prompt_unstripped dmX bkHello (JVal.str "r1")
    [("prompt", JVal.str "  hi  ")] "  hi  " (1 / 5) rfl rfl rfl

/-- Claim C10 (confirmed): the `format` parameter never influences the
backend invocation — two `llm.generate` requests whose params agree on every
key except `format` produce identical backend-call lists — and on success
the envelope's `data.format` simply echoes the supplied format value (or
`"markdown"` when absent). -/
theorem C10_format_passive (om : String) (bk : LLMCall → LLMResult) (id : JVal)
    (pf1 pf2 : List (String × JVal)) (p : String) (t : ℚ) (text : JVal)
    (usage : Option (List (String × JVal)))
    (hk : ∀ k, k ≠ "format" → jget pf1 k = jget pf2 k) :
    (handleMsg om bk (reqMsg id (JVal.str "llm.generate") (JVal.obj pf1))).calls =
      (handleMsg om bk (reqMsg id (JVal.str "llm.generate") (JVal.obj pf2))).calls ∧
    (jgetD pf1 "prompt" (JVal.str "") = JVal.str p → isBlank p = false →
      pyFloat (jgetD pf1 "temperature" (JVal.num (1 / 5))) = some t →
      bk (LLMCall.mk (jgetD pf1 "model" (JVal.str om)) t
          (jgetD pf1 "system" (JVal.str "You are a helpful assistant.")) p) =
        LLMResult.ok text usage →
      (handleMsg om bk (reqMsg id (JVal.str "llm.generate") (JVal.obj pf1))).sends =
        [resultOk id text (jgetD pf1 "format" (JVal.str "markdown")) (usage.getD [])]) := by
  have e1 : jgetD pf1 "prompt" (JVal.str "") = jgetD pf2 "prompt" (JVal.str "") :=
    jgetD_congr _ (hk "prompt" (by decide))
  have e2 : jgetD pf1 "system" (JVal.str "You are a helpful assistant.") =
      jgetD pf2 "system" (JVal.str "You are a helpful assistant.") :=
    jgetD_congr _ (hk "system" (by decide))
  have e3 : jgetD pf1 "model" (JVal.str om) = jgetD pf2 "model" (JVal.str om) :=
    jgetD_congr _ (hk "model" (by decide))
  have e4 : jgetD pf1 "temperature" (JVal.num (1 / 5)) =
      jgetD pf2 "temperature" (JVal.num (1 / 5)) :=
    jgetD_congr _ (hk "temperature" (by decide))
  constructor
  · have h1 : handleMsg om bk (reqMsg id (JVal.str "llm.generate") (JVal.obj pf1)) =
        dispatch om bk id (JVal.str "llm.generate") (JVal.obj pf1) := rfl
    have h2 : handleMsg om bk (reqMsg id (JVal.str "llm.generate") (JVal.obj pf2)) =
        dispatch om bk id (JVal.str "llm.generate") (JVal.obj pf2) := rfl
    rw [h1, h2]
    simp only [dispatch]
    rw [e1, e2, e3, e4]
    cases hq : pyFloat (jgetD pf2 "temperature" (JVal.num (1 / 5))) with
    | none => rfl
    | some t' =>
      dsimp only
      cases hpr : jgetD pf2 "prompt" (JVal.str "") with
      | null => rfl
      | bool b => rfl
      | num q => rfl
      | arr xs => rfl
      | obj fs => rfl
      | str s =>
        dsimp only
        by_cases hbs : isBlank s = true
        · rw [if_pos hbs, if_pos hbs]
        · rw [if_neg hbs, if_neg hbs]
          cases bk (LLMCall.mk (jgetD pf2 "model" (JVal.str om)) t'
              (jgetD pf2 "system" (JVal.str "You are a helpful assistant.")) s) <;> rfl
  · intro hp hb ht hbk
    have h0 : handleMsg om bk (reqMsg id (JVal.str "llm.generate") (JVal.obj pf1)) =
        dispatch om bk id (JVal.str "llm.generate") (JVal.obj pf1) := rfl
    rw [h0]
    simp only [dispatch, jgetD]
    simp only [jgetD] at hp ht hbk
    simp only [ht, hp]
    rw [if_neg (by simp [hb])]
    rw [hbk]

/-- Claim C10, witness: the same request with `format:"json"` and with no
format at all make the identical backend call, and the former's success
envelope echoes `"json"` in `data.format`. -/
theorem C10_witness :
    (handleMsg dmX bkHello (reqMsg (JVal.str "r1") (JVal.str "llm.generate")
        (JVal.obj [("prompt", JVal.str "hi"), ("format", JVal.str "json")]))).calls =
      (handleMsg dmX bkHello (reqMsg (JVal.str "r1") (JVal.str "llm.generate")
        (JVal.obj [("prompt", JVal.str "hi")]))).calls ∧
    (handleMsg dmX bkHello (reqMsg (JVal.str "r1") (JVal.str "llm.generate")
        (JVal.obj [("prompt", JVal.str "hi"), ("format", JVal.str "json")]))).sends =
      [resultOk (JVal.str "r1") (JVal.str "hello") (JVal.str "json") []] := by
  have h := C10_format_passive dmX bkHello (JVal.str "r1")
    [("prompt", JVal.str "hi"), ("format", JVal.str "json")]
    [("prompt", JVal.str "hi")] "hi" (1 / 5) (JVal.str "hello") none
    (fun k hkk => by
      have h2 : ("format" : String) ≠ k := fun hcon => hkk hcon.symm
      simp [jget, h2])
  exact ⟨h.1, h.2 rfl rfl rfl rfl⟩
